import Mathlib

/-!
Verification development for the Byteflow MCP call-manager
(`src/byteflowcall.py`).

The Python module is embedded shallowly:

* JSON values exchanged with the remote API become the inductive `Json`.
* Python truthiness of optional strings and of JSON values becomes
  `strFalsy` / `jsonTruthy`, and the Python `a or b` idiom becomes
  `pyOrStr` / `pyOrStrD` / `pyStrOrD`.
* The HTTP layer (`requests.request` together with the exception
  classification done by `_make_request`) is an oracle `Env`: for each
  sequential call index it yields an `HttpOutcome` (success body, HTTP
  error status, connection failure, timeout, other request exception, or
  any other exception), and `make_request` converts that outcome to
  `Except ApiError Json` exactly as the Python `except` clauses build
  `ByteflowAPIError`.  Each embedded operation threads the list of
  requests it has issued, so theorems can speak about how many network
  calls were made, in which order, and with which bodies and headers.
* Every tool returns `ToolResult` (structured data or an error string),
  mirroring the `Dict | str` return types of the Python tools.
-/

/-- JSON values, the shape of request bodies and of decoded responses
(Python dict/list/str/int/bool/None). -/
inductive Json where
  | null : Json
  | bool (b : Bool) : Json
  | num (n : Int) : Json
  | str (s : String) : Json
  | arr (elems : List Json) : Json
  | obj (fields : List (String × Json)) : Json

/-- Dictionary lookup, `d.get(key)` / `key in d and d[key]` on a Python
dict represented as an association list (keys unique, first match). -/
def jsonLookup : List (String × Json) → String → Option Json
  | [], _ => none
  | (k, v) :: rest, key => if k = key then some v else jsonLookup rest key

/-- Python truthiness of a JSON value (`bool(v)`). -/
def jsonTruthy : Json → Bool
  | Json.null => false
  | Json.bool b => b
  | Json.num n => n != 0
  | Json.str s => s != ""
  | Json.arr elems => !elems.isEmpty
  | Json.obj fields => !fields.isEmpty

mutual

/-- Python `repr` of a JSON value (used by `str` on containers). -/
def pyRepr : Json → String
  | Json.null => "None"
  | Json.bool true => "True"
  | Json.bool false => "False"
  | Json.num n => toString n
  | Json.str s => "\x27" ++ s ++ "\x27"
  | Json.arr elems => "[" ++ pyReprList elems ++ "]"
  | Json.obj fields => "\x7b" ++ pyReprFields fields ++ "\x7d"

/-- Comma-separated `repr`s of the elements of a list. -/
def pyReprList : List Json → String
  | [] => ""
  | [x] => pyRepr x
  | x :: y :: rest => pyRepr x ++ ", " ++ pyReprList (y :: rest)

/-- Comma-separated `repr`s of the items of a dict. -/
def pyReprFields : List (String × Json) → String
  | [] => ""
  | [(k, v)] => "\x27" ++ k ++ "\x27: " ++ pyRepr v
  | (k, v) :: y :: rest => "\x27" ++ k ++ "\x27: " ++ pyRepr v ++ ", " ++ pyReprFields (y :: rest)

end

/-- Python `str(v)` of a JSON value: a string is itself, anything else
is its `repr`-style rendering. -/
def pyStr : Json → String
  | Json.str s => s
  | Json.null => "None"
  | Json.bool b => pyRepr (Json.bool b)
  | Json.num n => toString n
  | Json.arr elems => pyRepr (Json.arr elems)
  | Json.obj fields => pyRepr (Json.obj fields)

/-- Python f-string interpolation of an `Optional[str]` value
(`None` renders as `"None"`). -/
def pyFStr : Option String → String
  | none => "None"
  | some s => s

/-- Python truthiness test `not x` for an `Optional[str]` value:
`None` and `""` are falsy. -/
def strFalsy : Option String → Bool
  | none => true
  | some s => s == ""

/-- Python `a or b` on two `Optional[str]` values: the first operand if
it is truthy (non-`None`, non-empty), otherwise the second. -/
def pyOrStr (a b : Option String) : Option String :=
  match a with
  | some s => if s = "" then b else some s
  | none => b

/-- Python `a or d` where `a` is `Optional[str]` and `d` a default
string: the default is used when `a` is `None` or empty. -/
def pyOrStrD (a : Option String) (d : String) : String :=
  match a with
  | some s => if s = "" then d else s
  | none => d

/-- Python `s or d` on two plain strings: `d` when `s` is empty. -/
def pyStrOrD (s d : String) : String :=
  if s = "" then d else s

/-- `ByteflowAPIError` (byteflowcall.py lines 32-38): message, optional
HTTP status code, optional raw response body text. -/
structure ApiError where
  message : String
  status_code : Option Nat
  response_text : Option String

/-- Behavior of one attempted HTTP request, as distinguished by the
`except` clauses of `_make_request` (lines 58-84): a decoded JSON body
on success, or one of the failure kinds `requests` can raise. -/
inductive HttpOutcome where
  | success (body : Json) : HttpOutcome
  | httpError (status : Nat) (text : String) : HttpOutcome
  | connectionError (msg : String) : HttpOutcome
  | timeout (msg : String) : HttpOutcome
  | requestException (msg : String) : HttpOutcome
  | otherException (msg : String) : HttpOutcome

/-- The exception classification of `_make_request` (lines 67-84):
success returns the body, every failure kind becomes a
`ByteflowAPIError` with the message the Python code formats; only the
HTTP-error case carries a status code and raw response text. -/
def apiResult : HttpOutcome → Except ApiError Json
  | HttpOutcome.success body => Except.ok body
  | HttpOutcome.httpError status text =>
      Except.error ⟨"Byteflow API HTTP Error: " ++ toString status ++ " - " ++ text,
        some status, some text⟩
  | HttpOutcome.connectionError m =>
      Except.error ⟨"Byteflow API Connection Error: " ++ m, none, none⟩
  | HttpOutcome.timeout m =>
      Except.error ⟨"Byteflow API Timeout Error: " ++ m, none, none⟩
  | HttpOutcome.requestException m =>
      Except.error ⟨"An unexpected request error occurred with Byteflow API: " ++ m, none, none⟩
  | HttpOutcome.otherException m =>
      Except.error ⟨"An unexpected error occurred during API request: " ++ m, none, none⟩

/-- One HTTP request as issued by `_make_request`: method, endpoint
path, query parameters, JSON body, and the headers sent. -/
structure Req where
  method : String
  endpoint : String
  params : Option Json
  jsonData : Option Json
  headers : List (String × String)

/-- The remote world and process configuration seen by the embedded
code: `apiKey k` is the value of the `BYTEFLOW_API_KEY` environment
variable at the time of the `k`-th request of the current operation
(read per call, so it may change between requests), and `respond k r`
is the outcome of the `k`-th request `r`. -/
structure Env where
  apiKey : Nat → Option String
  respond : Nat → Req → HttpOutcome

/-- Headers built by `_make_request` (lines 60-64): the static
`Content-Type` plus the credential sent simultaneously as a bearer
token and as `X-API-Key`; a missing key falls back to the placeholder
`"dummy_key_for_tests"` (the default of `os.getenv`). -/
def requestHeaders (apiKey : Option String) : List (String × String) :=
  let bearer_token := apiKey.getD "dummy_key_for_tests"
  [("Content-Type", "application/json"),
   ("Authorization", "Bearer " ++ bearer_token),
   ("X-API-Key", bearer_token)]

/-- The request issued as the `k`-th call, with headers built from the
credential value read at that moment. -/
def mkReq (env : Env) (k : Nat) (method endpoint : String)
    (params jsonData : Option Json) : Req :=
  ⟨method, endpoint, params, jsonData, requestHeaders (env.apiKey k)⟩

/-- `_make_request` (lines 41-84): build the request with call-time
headers, let the remote world respond, classify the outcome, and record
the request at the end of the trace. -/
def make_request (env : Env) (trace : List Req) (method endpoint : String)
    (params jsonData : Option Json) : Except ApiError Json × List Req :=
  let req := mkReq env trace.length method endpoint params jsonData
  (apiResult (env.respond trace.length req), trace ++ [req])

/-- What a tool returns across the MCP boundary: structured data or a
descriptive error string (the `Dict[str, Any] | str` return type). -/
inductive ToolResult where
  | data (j : Json) : ToolResult
  | msg (s : String) : ToolResult

/-- `CallIdInput` (lines 87-91). -/
structure CallIdInput where
  call_id : String

/-- `StartCallInput` (lines 93-113): legacy aliases, API-spec fields,
optional extras, and the two required prompt strings. -/
structure StartCallInput where
  to_number : Option String
  from_number : Option String
  destination : Option String
  did_number : Option String
  ai_client : Option String
  script_id : Option String
  metadata : Option (List (String × Json))
  system_prompt : String
  greeting_text : String

/-- `get_health_status` (lines 121-139). -/
def get_health_status (env : Env) : ToolResult × List Req :=
  match make_request env [] "GET" "/api/health" none none with
  | (Except.ok response, tr) => (ToolResult.data response, tr)
  | (Except.error e, tr) =>
      (ToolResult.msg ("Failed to get health status: " ++ e.message), tr)

/-- `get_configuration` (lines 141-159). -/
def get_configuration (env : Env) : ToolResult × List Req :=
  match make_request env [] "GET" "/api/config" none none with
  | (Except.ok response, tr) => (ToolResult.data response, tr)
  | (Except.error e, tr) =>
      (ToolResult.msg ("Failed to get configuration: " ++ e.message), tr)

/-- `get_call_status` (lines 161-184): 404 gets a distinguished
"not found" message. -/
def get_call_status (env : Env) (input : CallIdInput) : ToolResult × List Req :=
  match make_request env [] "GET" ("/api/call/" ++ input.call_id) none none with
  | (Except.ok response, tr) => (ToolResult.data response, tr)
  | (Except.error e, tr) =>
      if e.status_code = some 404 then
        (ToolResult.msg ("Call with ID \x27" ++ input.call_id ++
          "\x27 not found. Please check the call ID."), tr)
      else
        (ToolResult.msg ("Failed to get call status for \x27" ++ input.call_id ++
          "\x27: " ++ e.message), tr)

/-- `get_call_transcript` (lines 186-210): 404 gets a distinguished
"not found / not available" message. -/
def get_call_transcript (env : Env) (input : CallIdInput) : ToolResult × List Req :=
  match make_request env [] "GET" ("/api/call/" ++ input.call_id ++ "/transcript") none none with
  | (Except.ok response, tr) => (ToolResult.data response, tr)
  | (Except.error e, tr) =>
      if e.status_code = some 404 then
        (ToolResult.msg ("Transcript for call ID \x27" ++ input.call_id ++
          "\x27 not found or call does not exist. It might not be available yet."), tr)
      else
        (ToolResult.msg ("Failed to get call transcript for \x27" ++ input.call_id ++
          "\x27: " ++ e.message), tr)

/-- `get_active_calls` (lines 212-231). -/
def get_active_calls (env : Env) : ToolResult × List Req :=
  match make_request env [] "GET" "/api/calls/active" none none with
  | (Except.ok response, tr) => (ToolResult.data response, tr)
  | (Except.error e, tr) =>
      (ToolResult.msg ("Failed to get active calls: " ++ e.message), tr)

/-- `list_available_dids` (lines 233-264): primary lookup, then two
fallbacks, each attempted only when the previous raised
`ByteflowAPIError`; the first success is returned at once, and on total
failure the message of the last error is returned. -/
def list_available_dids (env : Env) : ToolResult × List Req :=
  match make_request env [] "POST" "/api/validate-and-fetch-dids" none none with
  | (Except.ok response, tr) => (ToolResult.data response, tr)
  | (Except.error _, tr) =>
      match make_request env tr "GET" "/api/did/my-dids" none none with
      | (Except.ok fallback1, tr1) => (ToolResult.data fallback1, tr1)
      | (Except.error _, tr1) =>
          match make_request env tr1 "GET" "/api/dids" none none with
          | (Except.ok fallback2, tr2) => (ToolResult.data fallback2, tr2)
          | (Except.error e_fb2, tr2) =>
              (ToolResult.msg ("Failed to list available DIDs: " ++ e_fb2.message), tr2)

/-- Line 288: `destination = input.destination or input.to_number`. -/
def resolveDestination (input : StartCallInput) : Option String :=
  pyOrStr input.destination input.to_number

/-- Line 289: `did_number = input.did_number or input.from_number`. -/
def resolveDidNumber0 (input : StartCallInput) : Option String :=
  pyOrStr input.did_number input.from_number

/-- Line 290: `ai_client = input.ai_client or "client1"`. -/
def resolveAiClient (input : StartCallInput) : String :=
  pyOrStrD input.ai_client "client1"

/-- Line 291: `system_prompt = input.system_prompt or ...default...`. -/
def resolveSystemPrompt (input : StartCallInput) : String :=
  pyStrOrD input.system_prompt "You are an AI assistant helping with a phone call."

/-- Line 292: `greeting_text = input.greeting_text or ...default...`. -/
def resolveGreetingText (input : StartCallInput) : String :=
  pyStrOrD input.greeting_text "Hello! This is an automated call."

/-- Line 294-295 validation message. -/
def destinationRequiredMsg : String :=
  "Failed to start call due to invalid input: destination/to_number is required."

/-- Line 311-312 validation message. -/
def didRequiredMsg : String :=
  "Failed to start call: did_number/from_number is required (no default DID available)."

/-- Lines 301-303: the DID list extracted from the auto-select response,
non-empty only when the response is a dict holding a list under the key
`"dids"`. -/
def extractDids (did_resp : Json) : List Json :=
  match did_resp with
  | Json.obj fields =>
      match jsonLookup fields "dids" with
      | some (Json.arr dids) => dids
      | _ => []
  | _ => []

/-- Lines 301-307: from a successful auto-select response, the new
`did_number` value.  When the extracted list is non-empty its first
entry is taken: a dict contributes its `"did_number"` field (`.get`,
so possibly `None`), any other value is coerced with `str`.  When the
list is empty, `did_number` keeps its previous (falsy) value. -/
def selectDid (did_resp : Json) (current : Option Json) : Option Json :=
  match extractDids did_resp with
  | [] => current
  | first :: _ =>
      match first with
      | Json.obj fields => jsonLookup fields "did_number"
      | v => some (Json.str (pyStr v))

/-- Python truthiness test `not x` on the (possibly JSON-valued)
`did_number` variable: `None` and falsy values are rejected. -/
def optJsonFalsy : Option Json → Bool
  | none => true
  | some v => !jsonTruthy v

/-- Lines 297-309: when `did_number` is falsy after alias resolution,
attempt exactly one auto-select lookup (`POST /api/validate-and-fetch-dids`);
a raised error is swallowed (`except Exception: pass`) leaving
`did_number` unchanged.  Returns the resulting `did_number` value and
the requests issued. -/
def autoSelectDid (env : Env) (input : StartCallInput) : Option Json × List Req :=
  let did0 := resolveDidNumber0 input
  if strFalsy did0 then
    match make_request env [] "POST" "/api/validate-and-fetch-dids" none none with
    | (Except.ok did_resp, tr) => (selectDid did_resp (did0.map Json.str), tr)
    | (Except.error _, tr) => (did0.map Json.str, tr)
  else
    (did0.map Json.str, [])

/-- Lines 314-326: the payload dict — the five always-present fields,
then `script_id` and `metadata` appended only when the input supplied
them (`is not None`); an absent optional never appears, not even as
null. -/
def buildPayload (destination : String) (did_number : Json)
    (ai_client system_prompt greeting_text : String)
    (script_id : Option String) (metadata : Option (List (String × Json))) :
    List (String × Json) :=
  [("destination", Json.str destination),
   ("did_number", did_number),
   ("ai_client", Json.str ai_client),
   ("system_prompt", Json.str system_prompt),
   ("greeting_text", Json.str greeting_text)]
  ++ (match script_id with
      | some s => [("script_id", Json.str s)]
      | none => [])
  ++ (match metadata with
      | some m => [("metadata", Json.obj m)]
      | none => [])

/-- The payload `start_new_call` posts for a given input, resolved
destination and resolved DID value. -/
def callPayload (input : StartCallInput) (dest : String) (dn : Json) :
    List (String × Json) :=
  buildPayload dest dn (resolveAiClient input)
    (resolveSystemPrompt input) (resolveGreetingText input)
    input.script_id input.metadata

/-- Lines 328-337: the final `POST /api/call` and the conversion of a
raised `ByteflowAPIError` into a message — 400/422 include the raw
response text, anything else the error message (both interpolate the
original `input.to_number`). -/
def submitCall (env : Env) (input : StartCallInput) (trace : List Req)
    (dest : String) (dn : Json) : ToolResult × List Req :=
  match make_request env trace "POST" "/api/call" none (some (Json.obj (callPayload input dest dn))) with
  | (Except.ok response, tr) => (ToolResult.data response, tr)
  | (Except.error e, tr) =>
      if e.status_code = some 400 ∨ e.status_code = some 422 then
        (ToolResult.msg ("Failed to start call due to invalid input: " ++
          pyFStr e.response_text ++ ". Please check the provided numbers and parameters."), tr)
      else
        (ToolResult.msg ("Failed to start call to \x27" ++ pyFStr input.to_number ++
          "\x27: " ++ e.message), tr)

/-- `start_new_call` (lines 266-337): resolve aliases and defaults,
validate `destination`, auto-select a DID when needed, validate
`did_number`, assemble the payload and submit. -/
def start_new_call (env : Env) (input : StartCallInput) : ToolResult × List Req :=
  match resolveDestination input with
  | none => (ToolResult.msg destinationRequiredMsg, [])
  | some dest =>
      if dest = "" then
        (ToolResult.msg destinationRequiredMsg, [])
      else
        match autoSelectDid env input with
        | (didNumber, trace) =>
            match didNumber with
            | none => (ToolResult.msg didRequiredMsg, trace)
            | some dn =>
                if jsonTruthy dn then
                  submitCall env input trace dest dn
                else
                  (ToolResult.msg didRequiredMsg, trace)

/-- `force_disconnect_call` (lines 339-362): 404 gets a distinguished
"not found or already disconnected" message. -/
def force_disconnect_call (env : Env) (input : CallIdInput) : ToolResult × List Req :=
  match make_request env [] "POST" ("/api/call/" ++ input.call_id ++ "/force-disconnect") none none with
  | (Except.ok response, tr) => (ToolResult.data response, tr)
  | (Except.error e, tr) =>
      if e.status_code = some 404 then
        (ToolResult.msg ("Call with ID \x27" ++ input.call_id ++
          "\x27 not found or already disconnected. Cannot force disconnect."), tr)
      else
        (ToolResult.msg ("Failed to force disconnect call \x27" ++ input.call_id ++
          "\x27: " ++ e.message), tr)

/-- The primary DID lookup request of the resolution chain (call 0). -/
def didReq1 (env : Env) : Req :=
  mkReq env 0 "POST" "/api/validate-and-fetch-dids" none none

/-- The first fallback DID request (call 1). -/
def didReq2 (env : Env) : Req :=
  mkReq env 1 "GET" "/api/did/my-dids" none none

/-- The second fallback DID request (call 2). -/
def didReq3 (env : Env) : Req :=
  mkReq env 2 "GET" "/api/dids" none none

/-- C1: `list_available_dids` tries the three remote lookups in fixed
order — `POST /api/validate-and-fetch-dids`, then
`GET /api/did/my-dids`, then `GET /api/dids` — each later step only
after the previous failed with an `ApiError`; the first success is
returned immediately with no further calls (first-fails/second-succeeds
makes exactly 2 calls and returns the second result), and when all
three fail exactly 3 calls were made and the surfaced message is the
third attempt's. -/
theorem list_available_dids_chain (env : Env) :
    (∀ r, apiResult (env.respond 0 (didReq1 env)) = Except.ok r →
      list_available_dids env = (ToolResult.data r, [didReq1 env])) ∧
    (∀ e r, apiResult (env.respond 0 (didReq1 env)) = Except.error e →
      apiResult (env.respond 1 (didReq2 env)) = Except.ok r →
      list_available_dids env = (ToolResult.data r, [didReq1 env, didReq2 env])) ∧
    (∀ e e1 r, apiResult (env.respond 0 (didReq1 env)) = Except.error e →
      apiResult (env.respond 1 (didReq2 env)) = Except.error e1 →
      apiResult (env.respond 2 (didReq3 env)) = Except.ok r →
      list_available_dids env =
        (ToolResult.data r, [didReq1 env, didReq2 env, didReq3 env])) ∧
    (∀ e e1 e2, apiResult (env.respond 0 (didReq1 env)) = Except.error e →
      apiResult (env.respond 1 (didReq2 env)) = Except.error e1 →
      apiResult (env.respond 2 (didReq3 env)) = Except.error e2 →
      list_available_dids env =
        (ToolResult.msg ("Failed to list available DIDs: " ++ e2.message),
         [didReq1 env, didReq2 env, didReq3 env])) := by
  refine ⟨?_, ?_, ?_, ?_⟩
  · intro r h
    simp only [didReq1] at h
    simp [list_available_dids, make_request, didReq1, h]
  · intro e r h1 h2
    simp only [didReq1, didReq2] at h1 h2
    simp [list_available_dids, make_request, didReq1, didReq2, h1, h2]
  · intro e e1 r h1 h2 h3
    simp only [didReq1, didReq2, didReq3] at h1 h2 h3
    simp [list_available_dids, make_request, didReq1, didReq2, didReq3, h1, h2, h3]
  · intro e e1 e2 h1 h2 h3
    simp only [didReq1, didReq2, didReq3] at h1 h2 h3
    simp [list_available_dids, make_request, didReq1, didReq2, didReq3, h1, h2, h3]

/-- Environment where the primary DID lookup fails with a connection
error and every later call succeeds with an empty list. -/
def wEnvC1 : Env :=
  ⟨fun _ => none,
   fun k _ =>
     if k = 0 then HttpOutcome.connectionError "refused"
     else HttpOutcome.success (Json.arr [])⟩

/-- Witness for C1: first lookup fails, second succeeds, so exactly two
requests are issued and the second result is returned. -/
theorem list_available_dids_chain_witness :
    list_available_dids wEnvC1 =
      (ToolResult.data (Json.arr []), [didReq1 wEnvC1, didReq2 wEnvC1]) :=
  (list_available_dids_chain wEnvC1).2.1
    ⟨"Byteflow API Connection Error: " ++ "refused", none, none⟩
    (Json.arr []) rfl rfl

/-- C2: when `destination` and `to_number` are both absent,
`start_new_call` returns the validation-error string immediately and
issues zero network calls. -/
theorem start_new_call_missing_destination (env : Env) (input : StartCallInput)
    (h1 : input.destination = none) (h2 : input.to_number = none) :
    start_new_call env input = (ToolResult.msg destinationRequiredMsg, []) := by
  simp [start_new_call, resolveDestination, pyOrStr, h1, h2]

/-- Input with no destination and no legacy alias. -/
def wInC2 : StartCallInput :=
  ⟨none, none, none, none, none, none, none, "p", "g"⟩

/-- Environment whose every response succeeds (irrelevant: no request
may be issued). -/
def wEnvC2 : Env :=
  ⟨fun _ => none, fun _ _ => HttpOutcome.success Json.null⟩

/-- Witness for C2 at a concrete input and environment. -/
theorem start_new_call_missing_destination_witness :
    start_new_call wEnvC2 wInC2 = (ToolResult.msg destinationRequiredMsg, []) :=
  start_new_call_missing_destination wEnvC2 wInC2 rfl rfl

/-- Any `ToolResult` is structured data or a message string. -/
theorem toolResult_cases (t : ToolResult) :
    (∃ j, t = ToolResult.data j) ∨ (∃ s, t = ToolResult.msg s) := by
  cases t with
  | data j => exact Or.inl ⟨j, rfl⟩
  | msg s => exact Or.inr ⟨s, rfl⟩

/-- C6: no tool operation lets an error escape: for every input and
every behavior of the remote HTTP layer (success, HTTP error status,
connection failure, timeout, or any other exception — the cases of
`HttpOutcome`), each of the eight tools returns a value that is either
structured data or a descriptive error string. -/
theorem tools_always_return_value (env : Env) (idInput : CallIdInput)
    (callInput : StartCallInput) :
    ((∃ j, (get_health_status env).1 = ToolResult.data j) ∨
      (∃ s, (get_health_status env).1 = ToolResult.msg s)) ∧
    ((∃ j, (get_configuration env).1 = ToolResult.data j) ∨
      (∃ s, (get_configuration env).1 = ToolResult.msg s)) ∧
    ((∃ j, (get_call_status env idInput).1 = ToolResult.data j) ∨
      (∃ s, (get_call_status env idInput).1 = ToolResult.msg s)) ∧
    ((∃ j, (get_call_transcript env idInput).1 = ToolResult.data j) ∨
      (∃ s, (get_call_transcript env idInput).1 = ToolResult.msg s)) ∧
    ((∃ j, (get_active_calls env).1 = ToolResult.data j) ∨
      (∃ s, (get_active_calls env).1 = ToolResult.msg s)) ∧
    ((∃ j, (list_available_dids env).1 = ToolResult.data j) ∨
      (∃ s, (list_available_dids env).1 = ToolResult.msg s)) ∧
    ((∃ j, (start_new_call env callInput).1 = ToolResult.data j) ∨
      (∃ s, (start_new_call env callInput).1 = ToolResult.msg s)) ∧
    ((∃ j, (force_disconnect_call env idInput).1 = ToolResult.data j) ∨
      (∃ s, (force_disconnect_call env idInput).1 = ToolResult.msg s)) :=
  ⟨toolResult_cases _, toolResult_cases _, toolResult_cases _, toolResult_cases _,
   toolResult_cases _, toolResult_cases _, toolResult_cases _, toolResult_cases _⟩

/-- C9: every request reads the credential at call time — the headers
of the `k`-th request are built from `env.apiKey k`, the key's value at
that moment — and sends it under both the bearer-style `Authorization`
header and the `X-API-Key` header; when the key is absent the
placeholder `dummy_key_for_tests` is used and the request is still
issued (the result is still taken from the remote response and the
trace still grows). -/
theorem make_request_call_time_auth (env : Env) (trace : List Req)
    (method endpoint : String) (params jsonData : Option Json) :
    make_request env trace method endpoint params jsonData =
      (apiResult (env.respond trace.length
          (mkReq env trace.length method endpoint params jsonData)),
       trace ++ [mkReq env trace.length method endpoint params jsonData]) ∧
    (∀ key, env.apiKey trace.length = some key →
      (mkReq env trace.length method endpoint params jsonData).headers =
        [("Content-Type", "application/json"),
         ("Authorization", "Bearer " ++ key),
         ("X-API-Key", key)]) ∧
    (env.apiKey trace.length = none →
      (mkReq env trace.length method endpoint params jsonData).headers =
        [("Content-Type", "application/json"),
         ("Authorization", "Bearer dummy_key_for_tests"),
         ("X-API-Key", "dummy_key_for_tests")]) := by
  refine ⟨rfl, ?_, ?_⟩
  · intro key h
    simp [mkReq, requestHeaders, h]
  · intro h
    simp [mkReq, requestHeaders, h]

/-- Environment with no configured API key. -/
def wEnvC9 : Env :=
  ⟨fun _ => none, fun _ _ => HttpOutcome.success Json.null⟩

/-- Witness for C9: with the key absent, the issued request carries the
placeholder under both headers. -/
theorem make_request_call_time_auth_witness :
    (mkReq wEnvC9 0 "GET" "/api/health" none none).headers =
      [("Content-Type", "application/json"),
       ("Authorization", "Bearer dummy_key_for_tests"),
       ("X-API-Key", "dummy_key_for_tests")] :=
  (make_request_call_time_auth wEnvC9 [] "GET" "/api/health" none none).2.2 rfl

/-- The request issued by the final call submission. -/
def callReq (env : Env) (input : StartCallInput) (k : Nat) (dest : String) (dn : Json) : Req :=
  mkReq env k "POST" "/api/call" none (some (Json.obj (callPayload input dest dn)))

/-- `submitCall` always issues exactly one `POST /api/call` carrying
the assembled payload, appended to the given trace. -/
theorem submitCall_trace (env : Env) (input : StartCallInput) (trace : List Req)
    (dest : String) (dn : Json) :
    (submitCall env input trace dest dn).2 =
      trace ++ [callReq env input trace.length dest dn] := by
  simp only [submitCall, make_request, callReq]
  split
  · rename_i response tr heq
    injection heq with h1 h2
    rw [← h2]
  · rename_i e tr heq
    injection heq with h1 h2
    rw [← h2]
    split <;> rfl

/-- `autoSelectDid` issues no request when the resolved `did_number` is
truthy and exactly the primary lookup otherwise. -/
theorem autoSelectDid_trace (env : Env) (input : StartCallInput) :
    (autoSelectDid env input).2 = [] ∨ (autoSelectDid env input).2 = [didReq1 env] := by
  simp only [autoSelectDid, make_request]
  by_cases h : strFalsy (resolveDidNumber0 input) = true
  · rw [if_pos h]
    right
    split
    · rename_i did_resp tr heq
      injection heq with h1 h2
      subst h2
      exact rfl
    · rename_i a tr heq
      injection heq with h1 h2
      subst h2
      exact rfl
  · rw [if_neg h]
    left
    rfl

/-- When the resolved `did_number` is falsy, `autoSelectDid` issues the
primary lookup: a raised `ApiError` is swallowed leaving `did_number`
unchanged, while a success updates it through `selectDid`. -/
theorem autoSelectDid_of_falsy (env : Env) (input : StartCallInput)
    (h0 : strFalsy (resolveDidNumber0 input) = true) :
    (∀ e, apiResult (env.respond 0 (didReq1 env)) = Except.error e →
      autoSelectDid env input =
        ((resolveDidNumber0 input).map Json.str, [didReq1 env])) ∧
    (∀ resp, apiResult (env.respond 0 (didReq1 env)) = Except.ok resp →
      autoSelectDid env input =
        (selectDid resp ((resolveDidNumber0 input).map Json.str), [didReq1 env])) := by
  constructor
  · intro e h
    simp only [didReq1] at h
    simp [autoSelectDid, make_request, h0, h, didReq1]
  · intro resp h
    simp only [didReq1] at h
    simp [autoSelectDid, make_request, h0, h, didReq1]

/-- When the resolved `did_number` is truthy, `autoSelectDid` issues no
request and keeps it. -/
theorem autoSelectDid_of_truthy (env : Env) (input : StartCallInput) (s : String)
    (h0 : resolveDidNumber0 input = some s) (hs : s ≠ "") :
    autoSelectDid env input = (some (Json.str s), []) := by
  simp [autoSelectDid, h0, strFalsy, hs]

/-- Every possible request trace of `start_new_call`: nothing, the
auto-select lookup alone, the call submission alone, or the auto-select
lookup followed by the call submission — and every submitted body is an
assembled payload for the resolved destination. -/
theorem start_new_call_trace_shape (env : Env) (input : StartCallInput) :
    (start_new_call env input).2 = [] ∨
    (start_new_call env input).2 = [didReq1 env] ∨
    (∃ dest dn, resolveDestination input = some dest ∧
      (start_new_call env input).2 = [callReq env input 0 dest dn]) ∨
    (∃ dest dn, resolveDestination input = some dest ∧
      (start_new_call env input).2 = [didReq1 env, callReq env input 1 dest dn]) := by
  cases hdest : resolveDestination input with
  | none => left; simp [start_new_call, hdest]
  | some dest =>
      by_cases hde : dest = ""
      · left; simp [start_new_call, hdest, hde]
      · cases hauto : autoSelectDid env input with
        | mk didNumber trace =>
            have htr : trace = [] ∨ trace = [didReq1 env] := by
              have := autoSelectDid_trace env input
              rw [hauto] at this
              exact this
            cases didNumber with
            | none =>
                have : (start_new_call env input).2 = trace := by
                  simp [start_new_call, hdest, hde, hauto]
                rcases htr with h | h
                · left; rw [this, h]
                · right; left; rw [this, h]
            | some dn =>
                by_cases ht : jsonTruthy dn = true
                · have hsub : start_new_call env input = submitCall env input trace dest dn := by
                    simp [start_new_call, hdest, hde, hauto, ht]
                  rcases htr with h | h
                  · right; right; left
                    refine ⟨dest, dn, rfl, ?_⟩
                    rw [hsub, h, submitCall_trace]
                    rfl
                  · right; right; right
                    refine ⟨dest, dn, rfl, ?_⟩
                    rw [hsub, h, submitCall_trace]
                    rfl
                · have : (start_new_call env input).2 = trace := by
                    simp [start_new_call, hdest, hde, hauto, ht]
                  rcases htr with h | h
                  · left; rw [this, h]
                  · right; left; rw [this, h]

/-- Shared: with a valid destination and no resolved DID, a failing
auto-select lookup is swallowed and `start_new_call` stops with the
DID-required validation message after exactly that one request. -/
theorem start_new_call_auto_error (env : Env) (input : StartCallInput) (dest : String)
    (hdest : resolveDestination input = some dest) (hne : dest ≠ "")
    (h0 : resolveDidNumber0 input = none)
    (e : ApiError) (h : apiResult (env.respond 0 (didReq1 env)) = Except.error e) :
    start_new_call env input = (ToolResult.msg didRequiredMsg, [didReq1 env]) := by
  have hfalsy : strFalsy (resolveDidNumber0 input) = true := by rw [h0]; rfl
  have ha := (autoSelectDid_of_falsy env input hfalsy).1 e h
  rw [h0] at ha
  simp only [Option.map_none'] at ha
  simp [start_new_call, hdest, hne, ha]

/-- Shared: with a valid destination and no resolved DID, a successful
auto-select lookup that yields no truthy DID leaves the tool at the
DID-required validation message after exactly that one request. -/
theorem start_new_call_no_did_selected (env : Env) (input : StartCallInput) (dest : String)
    (hdest : resolveDestination input = some dest) (hne : dest ≠ "")
    (h0 : resolveDidNumber0 input = none)
    (resp : Json) (h : apiResult (env.respond 0 (didReq1 env)) = Except.ok resp)
    (hf : optJsonFalsy (selectDid resp none) = true) :
    start_new_call env input = (ToolResult.msg didRequiredMsg, [didReq1 env]) := by
  have hfalsy : strFalsy (resolveDidNumber0 input) = true := by rw [h0]; rfl
  have ha := (autoSelectDid_of_falsy env input hfalsy).2 resp h
  rw [h0] at ha
  simp only [Option.map_none'] at ha
  cases hsel : selectDid resp none with
  | none =>
      rw [hsel] at ha
      simp [start_new_call, hdest, hne, ha]
  | some dn =>
      rw [hsel] at ha
      rw [hsel] at hf
      have ht : jsonTruthy dn = false := by
        simpa [optJsonFalsy] using hf
      simp [start_new_call, hdest, hne, ha, ht]

/-- Shared: with a valid destination and no resolved DID, a successful
auto-select lookup whose selected DID is truthy leads straight to the
call submission with the assembled payload as the second request. -/
theorem start_new_call_auto_submit (env : Env) (input : StartCallInput) (dest : String)
    (hdest : resolveDestination input = some dest) (hne : dest ≠ "")
    (h0 : resolveDidNumber0 input = none)
    (resp : Json) (dn : Json) (h : apiResult (env.respond 0 (didReq1 env)) = Except.ok resp)
    (hsel : selectDid resp none = some dn) (ht : jsonTruthy dn = true) :
    start_new_call env input = submitCall env input [didReq1 env] dest dn ∧
    (start_new_call env input).2 = [didReq1 env, callReq env input 1 dest dn] := by
  have hfalsy : strFalsy (resolveDidNumber0 input) = true := by rw [h0]; rfl
  have ha := (autoSelectDid_of_falsy env input hfalsy).2 resp h
  rw [h0] at ha
  simp only [Option.map_none'] at ha
  rw [hsel] at ha
  have hs : start_new_call env input = submitCall env input [didReq1 env] dest dn := by
    simp [start_new_call, hdest, hne, ha, ht]
  refine ⟨hs, ?_⟩
  rw [hs, submitCall_trace]
  rfl

/-- C3: when `didNumber` is absent after alias resolution, exactly one
auto-selection lookup (`POST /api/validate-and-fetch-dids`) is
attempted — never the two further fallback paths of the full DID
Resolution Chain; the first entry of the returned DID list is taken
(via `selectDid`: an object's `did_number` field, or a plain value
coerced to string); a failing lookup is swallowed and, the DID still
being absent, the tool returns the validation-error string with
`POST /api/call` never issued; only a truthy selected DID leads to the
call submission. -/
theorem start_new_call_autoselect (env : Env) (input : StartCallInput) (dest : String)
    (hdest : resolveDestination input = some dest) (hne : dest ≠ "")
    (h0 : resolveDidNumber0 input = none) :
    (∀ e, apiResult (env.respond 0 (didReq1 env)) = Except.error e →
      start_new_call env input = (ToolResult.msg didRequiredMsg, [didReq1 env])) ∧
    (∀ resp, apiResult (env.respond 0 (didReq1 env)) = Except.ok resp →
      optJsonFalsy (selectDid resp none) = true →
      start_new_call env input = (ToolResult.msg didRequiredMsg, [didReq1 env])) ∧
    (∀ resp dn, apiResult (env.respond 0 (didReq1 env)) = Except.ok resp →
      selectDid resp none = some dn → jsonTruthy dn = true →
      (start_new_call env input).2 = [didReq1 env, callReq env input 1 dest dn]) ∧
    (∀ r, r ∈ (start_new_call env input).2 →
      r.endpoint = "/api/validate-and-fetch-dids" ∨ r.endpoint = "/api/call") := by
  refine ⟨?_, ?_, ?_, ?_⟩
  · intro e h
    exact start_new_call_auto_error env input dest hdest hne h0 e h
  · intro resp h hf
    exact start_new_call_no_did_selected env input dest hdest hne h0 resp h hf
  · intro resp dn h hsel ht
    exact (start_new_call_auto_submit env input dest hdest hne h0 resp dn h hsel ht).2
  · intro r hr
    rcases start_new_call_trace_shape env input with hs | hs | ⟨d, dn, _, hs⟩ | ⟨d, dn, _, hs⟩
    · rw [hs] at hr; simp at hr
    · rw [hs] at hr; simp at hr
      subst hr; left; rfl
    · rw [hs] at hr; simp at hr
      subst hr; right; rfl
    · rw [hs] at hr; simp at hr
      rcases hr with hr | hr
      · subst hr; left; rfl
      · subst hr; right; rfl

/-- Input reaching the auto-select step: destination via the legacy
alias, no DID, no alias DID. -/
def wInC3 : StartCallInput :=
  ⟨some "0803", none, none, none, none, none, none, "p", "g"⟩

/-- Environment whose primary DID lookup fails with a connection
error. -/
def wEnvC3 : Env :=
  ⟨fun _ => none, fun _ _ => HttpOutcome.connectionError "down"⟩

/-- Witness for C3: the failing auto-select is swallowed, one request
was issued, and the validation message is returned. -/
theorem start_new_call_autoselect_witness :
    start_new_call wEnvC3 wInC3 = (ToolResult.msg didRequiredMsg, [didReq1 wEnvC3]) :=
  (start_new_call_autoselect wEnvC3 wInC3 "0803" rfl (by decide) rfl).1
    ⟨"Byteflow API Connection Error: " ++ "down", none, none⟩ rfl

/-- C4: every body POSTed to `/api/call` by `start_new_call` is an
assembled payload for the resolved destination, and the assembled
payload's keys are exactly the five required ones plus `script_id` only
when explicitly provided and `metadata` only when explicitly provided —
an absent optional field does not appear at all. -/
theorem start_new_call_payload_exact (env : Env) (input : StartCallInput) :
    (∀ r, r ∈ (start_new_call env input).2 → r.endpoint = "/api/call" →
      ∃ dest dn, resolveDestination input = some dest ∧
        r.jsonData = some (Json.obj (callPayload input dest dn))) ∧
    (∀ dest dn,
      (callPayload input dest dn).map Prod.fst =
        ["destination", "did_number", "ai_client", "system_prompt", "greeting_text"]
          ++ (match input.script_id with | some _ => ["script_id"] | none => [])
          ++ (match input.metadata with | some _ => ["metadata"] | none => [])) := by
  constructor
  · intro r hr hend
    rcases start_new_call_trace_shape env input with hs | hs | ⟨dest, dn, hd, hs⟩ | ⟨dest, dn, hd, hs⟩
    · rw [hs] at hr; simp at hr
    · rw [hs] at hr; simp at hr
      subst hr
      have hlit : (didReq1 env).endpoint = "/api/validate-and-fetch-dids" := rfl
      rw [hlit] at hend
      exact absurd hend (by decide)
    · rw [hs] at hr; simp at hr
      subst hr
      exact ⟨dest, dn, hd, rfl⟩
    · rw [hs] at hr; simp at hr
      rcases hr with hr | hr
      · subst hr
        have hlit : (didReq1 env).endpoint = "/api/validate-and-fetch-dids" := rfl
        rw [hlit] at hend
        exact absurd hend (by decide)
      · subst hr
        exact ⟨dest, dn, hd, rfl⟩
  · intro dest dn
    cases hsid : input.script_id <;> cases hmd : input.metadata <;>
      simp [callPayload, buildPayload, hsid, hmd]

/-- Input taking the direct path: destination and DID both given. -/
def wInC4 : StartCallInput :=
  ⟨none, none, some "0801", some "0802", none, none, none, "p", "g"⟩

/-- Environment answering every request successfully. -/
def wEnvC4 : Env :=
  ⟨fun _ => none, fun _ _ => HttpOutcome.success (Json.obj [("status", Json.str "initiated")])⟩

/-- Witness for C4: the one `/api/call` request of a concrete run
carries an assembled payload for the resolved destination. -/
theorem start_new_call_payload_exact_witness :
    ∃ dest dn, resolveDestination wInC4 = some dest ∧
      (callReq wEnvC4 wInC4 0 "0801" (Json.str "0802")).jsonData =
        some (Json.obj (callPayload wInC4 dest dn)) :=
  (start_new_call_payload_exact wEnvC4 wInC4).1
    (callReq wEnvC4 wInC4 0 "0801" (Json.str "0802"))
    (by
      have h : (start_new_call wEnvC4 wInC4).2 =
          [callReq wEnvC4 wInC4 0 "0801" (Json.str "0802")] := rfl
      rw [h]
      exact List.mem_singleton_self _)
    rfl

/-- Line 302 shape test: is the response a dict holding a list under
the key "dids"? -/
def isDidsShape : Json → Bool
  | Json.obj fields =>
      match jsonLookup fields "dids" with
      | some (Json.arr _) => true
      | _ => false
  | _ => false

/-- A response failing the shape test contributes no DID entries. -/
theorem extractDids_of_not_shape (resp : Json) (h : isDidsShape resp = false) :
    extractDids resp = [] := by
  cases resp with
  | obj fields =>
      simp only [isDidsShape] at h
      simp only [extractDids]
      cases hl : jsonLookup fields "dids" with
      | none => rfl
      | some v =>
          rw [hl] at h
          cases v with
          | arr l => exact Bool.noConfusion h
          | null => rfl
          | bool b => rfl
          | num n => rfl
          | str s => rfl
          | obj fs => rfl
  | null => rfl
  | bool b => rfl
  | num n => rfl
  | str s => rfl
  | arr l => rfl

/-- C10: with `did_number` and `from_number` both absent, if the
auto-select lookup succeeds but its response is not a dict containing a
list under the key "dids", or the first entry of that list is a dict
without a truthy "did_number" field, then no DID is selected: the tool
returns the DID-required validation message and its only request was
the auto-select lookup, so `POST /api/call` is never issued. -/
theorem start_new_call_malformed_did_response (env : Env) (input : StartCallInput)
    (dest : String)
    (hdest : resolveDestination input = some dest) (hne : dest ≠ "")
    (hdid : input.did_number = none) (hfrom : input.from_number = none)
    (resp : Json) (h : apiResult (env.respond 0 (didReq1 env)) = Except.ok resp)
    (hcase : isDidsShape resp = false ∨
      (∃ fields rest, extractDids resp = Json.obj fields :: rest ∧
        optJsonFalsy (jsonLookup fields "did_number") = true)) :
    start_new_call env input = (ToolResult.msg didRequiredMsg, [didReq1 env]) := by
  have h0 : resolveDidNumber0 input = none := by
    simp [resolveDidNumber0, pyOrStr, hdid, hfrom]
  have hf : optJsonFalsy (selectDid resp none) = true := by
    rcases hcase with hshape | ⟨fields, rest, hx, hjl⟩
    · simp [selectDid, extractDids_of_not_shape resp hshape, optJsonFalsy]
    · simp [selectDid, hx, hjl]
  exact start_new_call_no_did_selected env input dest hdest hne h0 resp h hf

/-- Input with no DID and no alias DID. -/
def wInC10 : StartCallInput :=
  ⟨some "0804", none, none, none, none, none, none, "p", "g"⟩

/-- Environment whose auto-select lookup succeeds but returns a DID
list whose first entry is a dict without a "did_number" field. -/
def wEnvC10 : Env :=
  ⟨fun _ => none,
   fun _ _ => HttpOutcome.success
     (Json.obj [("dids", Json.arr [Json.obj [("name", Json.str "x")]])])⟩

/-- Witness for C10: concrete malformed first entry forces the
DID-required message after the single auto-select request. -/
theorem start_new_call_malformed_did_response_witness :
    start_new_call wEnvC10 wInC10 = (ToolResult.msg didRequiredMsg, [didReq1 wEnvC10]) :=
  start_new_call_malformed_did_response wEnvC10 wInC10 "0804" rfl (by decide) rfl rfl
    (Json.obj [("dids", Json.arr [Json.obj [("name", Json.str "x")]])]) rfl
    (Or.inr ⟨[("name", Json.str "x")], [], rfl, rfl⟩)

/-- Input for C7's scenario: legacy `to_number`, prompts "p"/"g",
nothing else supplied. -/
def wInC7 : StartCallInput :=
  ⟨some "08069256212", none, none, none, none, none, none, "p", "g"⟩

/-- Environment for C7: the auto-select lookup returns the DID list
["+15551112222"], the call submission succeeds. -/
def wEnvC7 : Env :=
  ⟨fun _ => none,
   fun k _ =>
     if k = 0 then HttpOutcome.success (Json.obj [("dids", Json.arr [Json.str "+15551112222"])])
     else HttpOutcome.success (Json.obj [("call_id", Json.str "c1"), ("status", Json.str "initiated")])⟩

/-- C7: with `to_number="08069256212"`, `system_prompt="p"`,
`greeting_text="g"` and the auto-select lookup returning the DID list
["+15551112222"], `start_new_call` issues a `POST /api/call` whose body
contains destination "08069256212", did_number equal to the first
returned DID, and ai_client "client1". -/
theorem start_new_call_scenario :
    start_new_call wEnvC7 wInC7 =
      (ToolResult.data (Json.obj [("call_id", Json.str "c1"), ("status", Json.str "initiated")]),
       [didReq1 wEnvC7, callReq wEnvC7 wInC7 1 "08069256212" (Json.str "+15551112222")]) ∧
    (callReq wEnvC7 wInC7 1 "08069256212" (Json.str "+15551112222")).method = "POST" ∧
    (callReq wEnvC7 wInC7 1 "08069256212" (Json.str "+15551112222")).endpoint = "/api/call" ∧
    jsonLookup (callPayload wInC7 "08069256212" (Json.str "+15551112222")) "destination" =
      some (Json.str "08069256212") ∧
    jsonLookup (callPayload wInC7 "08069256212" (Json.str "+15551112222")) "did_number" =
      some (Json.str "+15551112222") ∧
    jsonLookup (callPayload wInC7 "08069256212" (Json.str "+15551112222")) "ai_client" =
      some (Json.str "client1") :=
  ⟨rfl, rfl, rfl, rfl, rfl, rfl⟩

/-- Input for C5's counterexample: `ai_client`, `system_prompt` and
`greeting_text` all present but empty, destination and DID given
directly. -/
def ceInC5 : StartCallInput :=
  ⟨none, none, some "0801", some "0802", some "", none, none, "", ""⟩

/-- Environment answering every request successfully. -/
def ceEnvC5 : Env :=
  ⟨fun _ => none, fun _ _ => HttpOutcome.success (Json.obj [("status", Json.str "initiated")])⟩

/-- C5 counterexample: all three fields are present but empty, yet the
payload actually POSTed by `start_new_call` carries the default values,
not the caller-supplied empty strings — a present-but-empty string IS
replaced by the default (Python `or` treats "" as falsy). -/
theorem start_new_call_empty_string_ce :
    ceInC5.ai_client = some "" ∧ ceInC5.system_prompt = "" ∧ ceInC5.greeting_text = "" ∧
    (start_new_call ceEnvC5 ceInC5).2 = [callReq ceEnvC5 ceInC5 0 "0801" (Json.str "0802")] ∧
    jsonLookup (callPayload ceInC5 "0801" (Json.str "0802")) "ai_client" =
      some (Json.str "client1") ∧
    jsonLookup (callPayload ceInC5 "0801" (Json.str "0802")) "system_prompt" =
      some (Json.str "You are an AI assistant helping with a phone call.") ∧
    jsonLookup (callPayload ceInC5 "0801" (Json.str "0802")) "greeting_text" =
      some (Json.str "Hello! This is an automated call.") ∧
    ("You are an AI assistant helping with a phone call." : String) ≠ "" ∧
    ("client1" : String) ≠ "" ∧ ("Hello! This is an automated call." : String) ≠ "" :=
  ⟨rfl, rfl, rfl, rfl, rfl, rfl, rfl, by decide, by decide, by decide⟩

/-- C5 amended: the defaults for `ai_client`, `system_prompt` and
`greeting_text` are applied when the corresponding field is absent OR
present-but-empty (Python falsy); a non-empty value is passed through
unchanged. -/
theorem start_new_call_empty_string_defaults (input : StartCallInput) :
    (input.ai_client = none ∨ input.ai_client = some "" →
      resolveAiClient input = "client1") ∧
    (∀ s, input.ai_client = some s → s ≠ "" → resolveAiClient input = s) ∧
    (input.system_prompt = "" →
      resolveSystemPrompt input = "You are an AI assistant helping with a phone call.") ∧
    (input.system_prompt ≠ "" → resolveSystemPrompt input = input.system_prompt) ∧
    (input.greeting_text = "" →
      resolveGreetingText input = "Hello! This is an automated call.") ∧
    (input.greeting_text ≠ "" → resolveGreetingText input = input.greeting_text) := by
  refine ⟨?_, ?_, ?_, ?_, ?_, ?_⟩
  · rintro (h | h) <;> simp [resolveAiClient, pyOrStrD, h]
  · intro s h hs
    simp [resolveAiClient, pyOrStrD, h, hs]
  · intro h
    simp [resolveSystemPrompt, pyStrOrD, h]
  · intro h
    simp [resolveSystemPrompt, pyStrOrD, h]
  · intro h
    simp [resolveGreetingText, pyStrOrD, h]
  · intro h
    simp [resolveGreetingText, pyStrOrD, h]

/-- Witness for C5's amended claim at the concrete empty-field input. -/
theorem start_new_call_empty_string_defaults_witness :
    resolveAiClient ceInC5 = "client1" ∧
    resolveSystemPrompt ceInC5 = "You are an AI assistant helping with a phone call." ∧
    resolveGreetingText ceInC5 = "Hello! This is an automated call." :=
  ⟨(start_new_call_empty_string_defaults ceInC5).1 (Or.inr rfl),
   (start_new_call_empty_string_defaults ceInC5).2.2.1 rfl,
   (start_new_call_empty_string_defaults ceInC5).2.2.2.2.1 rfl⟩

/-- Input for C8's counterexample: direct `destination` and
`did_number` present but empty, aliases present and non-empty. -/
def ceInC8 : StartCallInput :=
  ⟨some "08069256212", some "0700", some "", some "", none, none, none, "p", "g"⟩

/-- C8 counterexample: with `destination` and `to_number` both present,
the resolved destination is the alias, not the direct field, because
the present direct field is empty (Python `or` skips falsy operands);
likewise for `did_number` / `from_number`. -/
theorem alias_precedence_ce :
    ceInC8.destination = some "" ∧ ceInC8.to_number = some "08069256212" ∧
    resolveDestination ceInC8 = some "08069256212" ∧
    resolveDestination ceInC8 ≠ ceInC8.destination ∧
    ceInC8.did_number = some "" ∧ ceInC8.from_number = some "0700" ∧
    resolveDidNumber0 ceInC8 = some "0700" ∧
    resolveDidNumber0 ceInC8 ≠ ceInC8.did_number :=
  ⟨rfl, rfl, rfl, by decide, rfl, rfl, rfl, by decide⟩

/-- C8 amended: the direct field wins over the legacy alias whenever
both are present and the direct field is non-empty; a present-but-empty
direct field falls back to the alias. -/
theorem alias_precedence (input : StartCallInput) (d : String) :
    (input.destination = some d → d ≠ "" → resolveDestination input = some d) ∧
    (input.did_number = some d → d ≠ "" → resolveDidNumber0 input = some d) ∧
    (input.destination = some "" → resolveDestination input = input.to_number) ∧
    (input.did_number = some "" → resolveDidNumber0 input = input.from_number) := by
  refine ⟨?_, ?_, ?_, ?_⟩
  · intro h hd
    simp [resolveDestination, pyOrStr, h, hd]
  · intro h hd
    simp [resolveDidNumber0, pyOrStr, h, hd]
  · intro h
    simp [resolveDestination, pyOrStr, h]
  · intro h
    simp [resolveDidNumber0, pyOrStr, h]

/-- Input with a non-empty direct destination and an alias also
present. -/
def wInC8 : StartCallInput :=
  ⟨some "0700", none, some "0801", none, none, none, none, "p", "g"⟩

/-- Witness for C8's amended claim: the non-empty direct field wins;
the empty direct field falls back to the alias. -/
theorem alias_precedence_witness :
    resolveDestination wInC8 = some "0801" ∧
    resolveDidNumber0 ceInC8 = ceInC8.from_number :=
  ⟨(alias_precedence wInC8 "0801").1 rfl (by decide),
   (alias_precedence ceInC8 "0801").2.2.2 rfl⟩
